import Mathlib

/-!
Shallow embedding of the HA-CTS integration (`custom_components/cts`):
`cts_client.py`, `sensor.py`, `config_flow.py`.

Modelling conventions:
* Python strings are `List Char` (`Str`), so that `str.split` and f-string
  concatenation can be embedded exactly.
* Timestamps are integer seconds (`Int`); `parser.parse` of an ISO string is
  abstracted to the integer it denotes, and JSON floating-point coordinates
  are abstracted to `Int` (no claim reads them).
* Each HTTP call is a function of an explicit `HttpOutcome`: either the
  exception raised by `requests.get` (timeout, connection error), or a
  completed response carrying a status code and a body already shaped as the
  JSON fields the code reads.
* Python exceptions are explicit `PyExc` values threaded through `Except`;
  an exception with no handler on its path shows up in the result.
-/

/-- Python strings, modelled as lists of characters. -/
abbrev Str := List Char

deriving instance DecidableEq for Except

/-- Python exceptions that the embedded code can raise. -/
inductive PyExc where
  | indexError
  | typeError
  | stopIteration
  | requestsTimeout
  | requestsConnectionError
  deriving DecidableEq, Repr

/-- Errors escaping a `CtsClient` call: one of the two classified errors the
client raises itself (`InvalidToken`, `CannotConnect`, cts_client.py lines
437-442), or an unhandled Python exception propagating out of the call
unchanged (the client body contains no `try`/`except`). -/
inductive ClientError where
  | invalidToken
  | cannotConnect
  | raised (e : PyExc)
  deriving DecidableEq, Repr

/-- Outcome of a `requests.get` call: either the request itself raised
(timeout / network failure), or it completed with a status code and a body. -/
inductive HttpOutcome (β : Type) where
  | raised (e : PyExc)
  | completed (status : Nat) (body : β)

/-- Python `lst[i]`: `IndexError` when the index is out of range. -/
def listGet? {α : Type} (l : List α) (i : Nat) : Except PyExc α :=
  match l.get? i with
  | some x => Except.ok x
  | none => Except.error PyExc.indexError

/-- Model of `due_in_minutes` (cts_client.py lines 22-26):
`str(int((timestamp - dt_util.now()).total_seconds() / 60))`.
With integer-second timestamps the float quotient is exact enough that
Python `int()` is truncation toward zero, i.e. `Int.tdiv`. -/
def due_in_minutes (timestamp now : Int) : Str :=
  (toString (Int.tdiv (timestamp - now) 60)).toList

/-- Model of `Coordinates` (cts_client.py lines 119-135). -/
structure Coordinates where
  longitude : Int
  latitude : Int
  deriving DecidableEq, Repr

/-- Model of `CtsStopPoint` (cts_client.py lines 138-186). -/
structure CtsStopPoint where
  ref : Str
  coordinates : Coordinates
  name : Str
  code : Str
  logical_code : Str
  is_flexhop : Bool
  deriving DecidableEq, Repr

/-- Model of `CtsStopPointVisit` (cts_client.py lines 189-269). -/
structure CtsStopPointVisit where
  monitoring_ref_param : Str
  valid_until : Str
  stop_code : Str
  line_ref : Str
  vehicle_mode : Str
  line_name : Str
  destination_name : Str
  stop_point_name : Str
  departure_time : Int
  real_time : Bool
  deriving DecidableEq, Repr

/-- Model of `CtsStopPointVisit.get_minutes_to_departure_time` (cts_client.py
lines 267-269); `now` is passed explicitly in place of `dt_util.now()`. -/
def CtsStopPointVisit.get_minutes_to_departure_time
    (v : CtsStopPointVisit) (now : Int) : Str :=
  due_in_minutes v.departure_time now

/-- Model of `InfoMessageContent` (cts_client.py lines 29-51). -/
structure InfoMessageContent where
  title : Str
  period : Str
  value : Str
  deriving DecidableEq, Repr

/-- Model of `InfoMessage` (cts_client.py lines 54-116). -/
structure InfoMessage where
  item_identifier : Str
  message_identifier : Str
  channel_ref : Str
  impact_start : Int
  impact_end : Int
  impacted_lines_refs : List Str
  priority : Str
  message : InfoMessageContent
  deriving DecidableEq, Repr

/-- One entry of `message["Content"]["Message"]`: its `MessageZoneRef` tag and
the list of `MessageText` entries, each abstracted to its `Value`. -/
structure ZoneMessage where
  messageZoneRef : Str
  messageTextValues : List Str
  deriving DecidableEq, Repr

/-- One entry of the `InfoMessage` JSON array read by
`get_general_messages` (cts_client.py lines 305-333). -/
structure InfoMessageJson where
  itemIdentifier : Str
  infoMessageIdentifier : Str
  infoChannelRef : Str
  impactStartDateTime : Int
  impactEndDateTime : Int
  impactedLineRef : List Str
  priority : Str
  contentMessages : List ZoneMessage
  deriving DecidableEq, Repr

/-- Body of a completed general-message response, shaped as the path
`json["ServiceDelivery"]["GeneralMessageDelivery"]["InfoMessage"]`. -/
structure GeneralMessageBody where
  infoMessages : List InfoMessageJson
  deriving DecidableEq, Repr

/-- Model of `next(msg["MessageText"][0]["Value"] for msg in messages if
msg["MessageZoneRef"] == zone)` (cts_client.py lines 307-321): the generator
raises `StopIteration` when no entry matches the zone, and the `[0]` subscript
raises `IndexError` when `MessageText` is empty. -/
def findZoneValue (msgs : List ZoneMessage) (zone : Str) : Except PyExc Str :=
  match msgs.find? (fun m => decide (m.messageZoneRef = zone)) with
  | some m => listGet? m.messageTextValues 0
  | none => Except.error PyExc.stopIteration

/-- Model of the per-message record construction in `get_general_messages`
(cts_client.py lines 305-335). -/
def parseInfoMessage (m : InfoMessageJson) : Except PyExc InfoMessage := do
  let t ← findZoneValue m.contentMessages "title".toList
  let p ← findZoneValue m.contentMessages "period".toList
  let v ← findZoneValue m.contentMessages "details".toList
  pure
    { item_identifier := m.itemIdentifier
      message_identifier := m.infoMessageIdentifier
      channel_ref := m.infoChannelRef
      impact_start := m.impactStartDateTime
      impact_end := m.impactEndDateTime
      impacted_lines_refs := m.impactedLineRef
      priority := m.priority
      message := { title := t, period := p, value := v } }

/-- Parsing stage of `get_general_messages` (cts_client.py lines 297-337):
any exception raised while mapping the message array propagates. -/
def generalMessagesParse (body : GeneralMessageBody) :
    Except ClientError (List InfoMessage) :=
  match body.infoMessages.mapM parseInfoMessage with
  | Except.error e => Except.error (ClientError.raised e)
  | Except.ok l => Except.ok l

/-- Model of `CtsClient.get_general_messages` (cts_client.py lines 279-337)
over an explicit HTTP outcome.  A raised request exception has no handler in
the client and propagates unchanged; a non-OK status is checked only against
401 and 500, every other status falls through to parsing. -/
def CtsClient.get_general_messages (out : HttpOutcome GeneralMessageBody) :
    Except ClientError (List InfoMessage) :=
  match out with
  | HttpOutcome.raised e => Except.error (ClientError.raised e)
  | HttpOutcome.completed status body =>
    if status ≠ 200 then
      if status = 401 then Except.error ClientError.invalidToken
      else if status = 500 then Except.error ClientError.cannotConnect
      else generalMessagesParse body
    else generalMessagesParse body

/-- One entry of the `AnnotatedStopPointRef` JSON array read by
`discover_stoppoints` (cts_client.py lines 361-373). -/
structure StopPointJson where
  stopPointRef : Str
  longitude : Int
  latitude : Int
  stopName : Str
  stopCode : Str
  logicalStopCode : Str
  isFlexhopStop : Bool
  deriving DecidableEq, Repr

/-- Body of a completed discovery response, shaped as the path
`json["StopPointsDelivery"]["AnnotatedStopPointRef"]`. -/
structure DiscoveryBody where
  annotatedStopPointRef : List StopPointJson
  deriving DecidableEq, Repr

/-- Model of the per-stop record construction (cts_client.py lines 362-372). -/
def parseStopPoint (sp : StopPointJson) : CtsStopPoint :=
  { ref := sp.stopPointRef
    coordinates := { longitude := sp.longitude, latitude := sp.latitude }
    name := sp.stopName
    code := sp.stopCode
    logical_code := sp.logicalStopCode
    is_flexhop := sp.isFlexhopStop }

/-- The comparison performed by `sorted(stop_points, key=lambda x: x.name)`
(cts_client.py line 375): ordering by display name. -/
def stopPointNameLe (a b : CtsStopPoint) : Prop := a.name ≤ b.name

instance : DecidableRel stopPointNameLe :=
  fun a b => inferInstanceAs (Decidable (a.name ≤ b.name))

instance : IsTrans CtsStopPoint stopPointNameLe :=
  ⟨fun _ _ _ hab hbc => le_trans hab hbc⟩

instance : IsTotal CtsStopPoint stopPointNameLe :=
  ⟨fun a b => le_total a.name b.name⟩

/-- Parsing stage of `discover_stoppoints` (cts_client.py lines 357-375).
Python `sorted` is a stable sort by `x.name`; `List.insertionSort` is also
stable, so both denote the same list. -/
def discoveryParse (body : DiscoveryBody) : Except ClientError (List CtsStopPoint) :=
  Except.ok
    (List.insertionSort stopPointNameLe (body.annotatedStopPointRef.map parseStopPoint))

/-- Model of `CtsClient.discover_stoppoints` (cts_client.py lines 339-375)
over an explicit HTTP outcome; same status handling as the other calls. -/
def CtsClient.discover_stoppoints (out : HttpOutcome DiscoveryBody) :
    Except ClientError (List CtsStopPoint) :=
  match out with
  | HttpOutcome.raised e => Except.error (ClientError.raised e)
  | HttpOutcome.completed status body =>
    if status ≠ 200 then
      if status = 401 then Except.error ClientError.invalidToken
      else if status = 500 then Except.error ClientError.cannotConnect
      else discoveryParse body
    else discoveryParse body

/-- The `MonitoredVehicleJourney` sub-object of one visit, flattened to the
fields read in cts_client.py lines 417-425 (`MonitoredCall` included). -/
structure VehicleJourney where
  lineRef : Str
  vehicleMode : Str
  publishedLineName : Str
  destinationName : Str
  stopPointName : Str
  expectedDepartureTime : Int
  isRealTime : Bool
  deriving DecidableEq, Repr

/-- One entry of the `MonitoredStopVisit` JSON array.
`visit.get("MonitoredVehicleJourney")` yields `None` when absent. -/
structure VisitJson where
  stopCode : Str
  monitoredVehicleJourney : Option VehicleJourney
  deriving DecidableEq, Repr

/-- One entry of `json["ServiceDelivery"]["StopMonitoringDelivery"]`.
`MonitoredStopVisit` may be absent (`None`). -/
structure StopMonitoringDelivery where
  validUntil : Str
  monitoringRef : Str
  monitoredStopVisit : Option (List VisitJson)
  deriving DecidableEq, Repr

/-- Body of a completed stop-monitoring response, shaped as the path
`json["ServiceDelivery"]["StopMonitoringDelivery"]` (an array; the code
indexes `[0]`). -/
structure MonitorBody where
  stopMonitoringDelivery : List StopMonitoringDelivery
  deriving DecidableEq, Repr

/-- Model of the per-visit record construction (cts_client.py lines 411-427):
when `MonitoredVehicleJourney` is absent, `vehicle` is `None` and the
subscript `vehicle["LineRef"]` raises `TypeError`. -/
def parseVisit (monitoringRef validUntil : Str) (v : VisitJson) :
    Except PyExc CtsStopPointVisit :=
  match v.monitoredVehicleJourney with
  | none => Except.error PyExc.typeError
  | some j =>
    Except.ok
      { monitoring_ref_param := monitoringRef
        valid_until := validUntil
        stop_code := v.stopCode
        line_ref := j.lineRef
        vehicle_mode := j.vehicleMode
        line_name := j.publishedLineName
        destination_name := j.destinationName
        stop_point_name := j.stopPointName
        departure_time := j.expectedDepartureTime
        real_time := j.isRealTime }

/-- Parsing stage of `monitor_stop` (cts_client.py lines 402-434):
`StopMonitoringDelivery[0]` (an `IndexError` when the array is empty), then
`response_delivery.get("MonitoredStopVisit") or []` — `Option.getD [] ` is
that expression exactly, since `or` maps both `None` and `[]` to `[]` — then
the visit loop, then the warning when the built list is empty.  The returned
`Bool` records whether the warning was logged. -/
def monitorParse (body : MonitorBody) :
    Except ClientError (List CtsStopPointVisit × Bool) :=
  match listGet? body.stopMonitoringDelivery 0 with
  | Except.error e => Except.error (ClientError.raised e)
  | Except.ok d =>
    match (d.monitoredStopVisit.getD []).mapM (parseVisit d.monitoringRef d.validUntil) with
    | Except.error e => Except.error (ClientError.raised e)
    | Except.ok l => Except.ok (l, decide (l.length ≤ 0))

/-- Model of `CtsClient.monitor_stop` (cts_client.py lines 377-434) over an
explicit HTTP outcome.  `stopCode` and `lineRef` only shape the request and
the log lines, so they do not influence the returned value. -/
def CtsClient.monitor_stop (stopCode : Str) (lineRef : Option Str)
    (out : HttpOutcome MonitorBody) :
    Except ClientError (List CtsStopPointVisit × Bool) :=
  match out with
  | HttpOutcome.raised e => Except.error (ClientError.raised e)
  | HttpOutcome.completed status body =>
    if status ≠ 200 then
      if status = 401 then Except.error ClientError.invalidToken
      else if status = 500 then Except.error ClientError.cannotConnect
      else monitorParse body
    else monitorParse body

/-- Exceptions escaping `NextDepartureSensor.async_update`: either a
`ClientError` raised inside `monitor_stop`, or a Python exception raised in
the update body itself. -/
inductive UpdateExc where
  | client (e : ClientError)
  | py (e : PyExc)
  deriving DecidableEq, Repr

/-- The mutable fields of `NextDepartureSensor` that `async_update` touches
(sensor.py lines 91-104): `_state` (the displayed value, `native_value`),
`_times`, `_available`, `_attr_icon`, `_device_name`. -/
structure SensorState where
  state : Option Str
  times : Option (List CtsStopPointVisit)
  available : Bool
  icon : Str
  deviceName : Str
  deriving DecidableEq, Repr

/-- The sensor state freshly constructed by `__init__` (sensor.py lines
91-104): no value, no times, unavailable, the class-level default icon. -/
def SensorState.initial : SensorState :=
  { state := none
    times := none
    available := false
    icon := "mdi:train-bus".toList
    deviceName := [] }

/-- Model of the `native_value` property (sensor.py lines 126-129). -/
def native_value (s : SensorState) : Option Str := s.state

/-- Model of `contextlib.suppress(TypeError)` around one statement: a
`TypeError` is swallowed (nothing assigned), any other exception escapes. -/
def suppressTypeError {α : Type} (r : Except PyExc α) : Except PyExc (Option α) :=
  match r with
  | Except.ok a => Except.ok (some a)
  | Except.error PyExc.typeError => Except.ok none
  | Except.error e => Except.error e

/-- Model of `NextDepartureSensor.async_update` (sensor.py lines 156-176).
`res` is the outcome of the `monitor_stop` call (its warning flag is unused
here); `now` stands for `dt_util.now()`.  Mutations performed before an
exception escapes persist on the object, so the result carries both the
final state and the escaped exception, if any.  The statement
`self._state = self._times[0].get_minutes_to_departure_time()` sits inside
`suppress(TypeError)`, and the icon / device-name statements after the
`with` block index `self._times[0]` with no guard at all. -/
def async_update (s : SensorState) (now : Int)
    (res : Except ClientError (List CtsStopPointVisit × Bool)) :
    SensorState × Option UpdateExc :=
  match res with
  | Except.error e => (s, some (UpdateExc.client e))
  | Except.ok (visits, _) =>
    let s1 : SensorState := { s with available := true, times := some visits }
    match suppressTypeError
        ((listGet? visits 0).map (fun v => v.get_minutes_to_departure_time now)) with
    | Except.error e => (s1, some (UpdateExc.py e))
    | Except.ok assigned =>
      let s2 : SensorState :=
        match assigned with
        | some val => { s1 with state := some val }
        | none => s1
      match listGet? visits 0 with
      | Except.error e => (s2, some (UpdateExc.py e))
      | Except.ok v =>
        ({ s2 with
            icon := if v.vehicle_mode = "bus".toList
              then "mdi:bus".toList else "mdi:tram".toList
            deviceName := ['('] ++ v.line_ref ++ [')', ' '] ++ v.stop_point_name
              ++ [' ', '-', ' '] ++ v.destination_name },
          none)

/-- One entry of the persisted `monitored_stops` configuration.  The entries
rebuilt from the stored options in `OptionsFlowHandler.__init__`
(config_flow.py lines 125-133) carry only `line_ref` and `stop_code`
(`none` for the other two keys); the entry appended on destination submission
additionally carries `logical_stop_code` and `stop_name`. -/
structure MonitoredStop where
  line_ref : Str
  stop_code : Str
  logical_stop_code : Option Str
  stop_name : Option Str
  deriving DecidableEq, Repr

/-- Python `s.split("_")` split on every underscore; as in Python,
`"".split("_") == [""]` and separators at the ends produce empty parts. -/
def splitUnderscores : Str → List Str
  | [] => [[]]
  | c :: rest =>
    let r := splitUnderscores rest
    if c = '_' then [] :: r
    else (c :: r.headD []) :: r.tail

/-- Python `s.split("_", maxsplit=1)`: at most one split, at the first
underscore. -/
def splitUnderscoreOnce : Str → List Str
  | [] => [[]]
  | c :: rest =>
    if c = '_' then [[], rest]
    else
      let r := splitUnderscoreOnce rest
      (c :: r.headD []) :: r.tail

/-- The composite key `f"{item.line_ref}_{item.stop_code}"` built for each
destination option (config_flow.py line 258); the sensor `unique_id`
(sensor.py line 109) is the same expression. -/
def encodeDestKey (lineRef stopCode : Str) : Str := lineRef ++ '_' :: stopCode

/-- Model of the destination-key decoding on submission
(config_flow.py lines 221-223): `line_ref := key.split("_", maxsplit=1)[0]`
and `stop_code := key.split("_")[1]` (an `IndexError` when the key holds no
underscore). -/
def decodeDestKey (key : Str) : Except PyExc (Str × Str) := do
  let lr ← listGet? (splitUnderscoreOnce key) 0
  let sc ← listGet? (splitUnderscores key) 1
  pure (lr, sc)

/-- Model of the submit branch of `async_step_set_destination`
(config_flow.py lines 220-237): decode the selected key into the current
stop's `(line_ref, stop_code)`, then append it to the configured list unless
some configured entry already has the same pair — in that case only a log
line is emitted and the list is returned unchanged. -/
def setDestinationSubmit (stops : List MonitoredStop)
    (logicalStopCode stopName : Str) (key : Str) :
    Except PyExc (List MonitoredStop) := do
  let (lr, sc) ← decodeDestKey key
  let current : MonitoredStop :=
    { line_ref := lr
      stop_code := sc
      logical_stop_code := some logicalStopCode
      stop_name := some stopName }
  if stops.any (fun x =>
      decide (x.line_ref = current.line_ref ∧ x.stop_code = current.stop_code)) then
    pure stops
  else
    pure (stops ++ [current])

/-- Python `list.remove(v)`: drop the first element equal to `v`.  In the one
call site modelled here `v` is always an element of the list, so the
`ValueError` branch is unreachable and not modelled. -/
def removeFirstEq (l : List MonitoredStop) (v : MonitoredStop) : List MonitoredStop :=
  match l with
  | [] => []
  | x :: xs => if x = v then xs else x :: removeFirstEq xs v

/-- Model of one removal in `async_step_remove_stop` (config_flow.py lines
290-305): the selected device's registry identifier
`f"{line_ref}_{stop_code}"` is split with `split("_", 1)` (indexing `[1]`
raises `IndexError` when there is no underscore), the first configured stop
matching both parts is picked with `[...][0]` (an `IndexError` when nothing
matches), and removed with `list.remove`. -/
def removeStopByIdentifier (stops : List MonitoredStop) (identifier : Str) :
    Except PyExc (List MonitoredStop) := do
  let parts := splitUnderscoreOnce identifier
  let lr ← listGet? parts 0
  let sc ← listGet? parts 1
  let target ← listGet?
    (stops.filter (fun x => decide (x.line_ref = lr ∧ x.stop_code = sc))) 0
  pure (removeFirstEq stops target)

/-- The comparison performed by `sorted(destinations, key=lambda x:
x.line_name)` (config_flow.py line 256). -/
def lineNameLe (a b : CtsStopPointVisit) : Prop := a.line_name ≤ b.line_name

instance : DecidableRel lineNameLe :=
  fun a b => inferInstanceAs (Decidable (a.line_name ≤ b.line_name))

/-- Python `dict` assignment `d[k] = v`: a later binding overwrites the value
but keeps the key's first insertion position. -/
def dictInsert (d : List (Str × Str)) (k v : Str) : List (Str × Str) :=
  if d.any (fun p => decide (p.1 = k)) then
    d.map (fun p => if p.1 = k then (k, v) else p)
  else
    d ++ [(k, v)]

/-- The destination dropdown options built from the visits (config_flow.py
lines 255-259): visits sorted by line name, each inserting the pair of
composite key and label `f"({item.line_ref}) {item.destination_name}"` into
a dict. -/
def destOptions (visits : List CtsStopPointVisit) : List (Str × Str) :=
  (List.insertionSort lineNameLe visits).foldl
    (fun d it =>
      dictInsert d (encodeDestKey it.line_ref it.stop_code)
        (['('] ++ it.line_ref ++ [')', ' '] ++ it.destination_name))
    []

/-- Result of the fetch branch of `async_step_set_destination`: either the
form is shown again (with an error code attached, or with the options built
from the visits), or an exception escapes the step. -/
inductive DestStepResult where
  | form (errorCode : Option Str) (stopName : Option Str) (options : List (Str × Str))
  | stepRaised (e : PyExc)
  deriving DecidableEq, Repr

/-- Model of the fetch branch of `async_step_set_destination`
(config_flow.py lines 239-279).  The `try` wraps only the `monitor_stop`
call; the classified errors map to form error codes and any other exception
to the code `"unknown"`.  The `else` branch then reads
`destinations[0].stop_point_name` with no guard, so an empty visit list
raises an `IndexError` that no handler catches. -/
def setDestinationFetch (res : Except ClientError (List CtsStopPointVisit × Bool)) :
    DestStepResult :=
  match res with
  | Except.error ClientError.cannotConnect =>
    DestStepResult.form (some "cannot_connect".toList) none []
  | Except.error ClientError.invalidToken =>
    DestStepResult.form (some "invalid_api_token".toList) none []
  | Except.error (ClientError.raised _) =>
    DestStepResult.form (some "unknown".toList) none []
  | Except.ok (destinations, _) =>
    match listGet? destinations 0 with
    | Except.error e => DestStepResult.stepRaised e
    | Except.ok first =>
      DestStepResult.form none (some first.stop_point_name) (destOptions destinations)

/-- A concrete visit used by witnesses and counterexamples: departure at the
time origin, served by a bus line. -/
def sampleVisit : CtsStopPointVisit :=
  { monitoring_ref_param := "22".toList
    valid_until := "2024".toList
    stop_code := "22a".toList
    line_ref := "A".toList
    vehicle_mode := "bus".toList
    line_name := "A".toList
    destination_name := "Parc des Sports".toList
    stop_point_name := "Homme de Fer".toList
    departure_time := 0
    real_time := true }

/-- Helper: on a non-empty visit list, `async_update` writes
`due_in_minutes` of the first visit's departure into the displayed state. -/
lemma async_update_cons_state (s : SensorState) (now : Int)
    (v : CtsStopPointVisit) (rest : List CtsStopPointVisit) (warned : Bool) :
    (async_update s now (Except.ok (v :: rest, warned))).1.state =
      some (due_in_minutes v.departure_time now) := rfl

/-- C1: the claim states that a refresh seeing zero visits raises nothing,
keeps the previous `native_value` and marks the sensor unavailable.  The code
does the opposite on two of the three points: it sets `_available = True`
and stores the empty visit list, then `self._times[0]` raises `IndexError`
— `suppress(TypeError)` does not catch it — which escapes `async_update`;
only the displayed state is (incidentally) preserved, because the raising
statement never completes its assignment. -/
theorem c1_zero_visits_refresh_raises (s : SensorState) (now : Int) (warned : Bool) :
    async_update s now (Except.ok ([], warned)) =
      ({ s with available := true, times := some [] },
        some (UpdateExc.py PyExc.indexError)) := rfl

/-- C2 fails as stated: for an overdue departure 90 seconds in the past the
code renders `str(int(-1.5)) = "-1"`, while the claimed floor is `-2`. -/
theorem c2_counterexample :
    (async_update SensorState.initial 90 (Except.ok ([sampleVisit], false))).1.state ≠
      some (toString (Int.fdiv (sampleVisit.departure_time - 90) 60)).toList := by
  decide

/-- C2 (amended): with N≥1 visits the sensor's displayed due-in value is
`str(int((visit[0].departure_time - now).total_seconds() / 60))`, truncation
toward zero; whenever the departure is not earlier than now this coincides
with the claimed floor rendering (they differ only on overdue departures
that are not a whole number of minutes in the past). -/
theorem c2_due_in_floor_when_not_overdue (s : SensorState) (now : Int)
    (v : CtsStopPointVisit) (rest : List CtsStopPointVisit) (warned : Bool)
    (h : now ≤ v.departure_time) :
    (async_update s now (Except.ok (v :: rest, warned))).1.state =
      some (toString (Int.fdiv (v.departure_time - now) 60)).toList := by
  rw [async_update_cons_state]
  have h0 : (0 : Int) ≤ v.departure_time - now := sub_nonneg.mpr h
  unfold due_in_minutes
  rw [Int.tdiv_eq_ediv h0 (by norm_num), Int.fdiv_eq_ediv _ (by norm_num)]

/-- Witness for the amended C2 at a departure exactly at `now`. -/
theorem c2_due_in_floor_when_not_overdue_witness :
    (0 : Int) ≤ sampleVisit.departure_time ∧
    (async_update SensorState.initial 0 (Except.ok ([sampleVisit], false))).1.state =
      some (toString (Int.fdiv (sampleVisit.departure_time - 0) 60)).toList :=
  ⟨by decide,
    c2_due_in_floor_when_not_overdue SensorState.initial 0 sampleVisit [] false (by decide)⟩

/-- C3 fails as stated: a request timeout in `monitor_stop` is not surfaced
as `CannotConnect` — the client wraps `requests.get` in no handler, so the
timeout exception propagates unchanged. -/
theorem c3_counterexample :
    CtsClient.monitor_stop "22".toList none (HttpOutcome.raised PyExc.requestsTimeout) =
      Except.error (ClientError.raised PyExc.requestsTimeout) ∧
    CtsClient.monitor_stop "22".toList none (HttpOutcome.raised PyExc.requestsTimeout) ≠
      Except.error ClientError.cannotConnect :=
  ⟨rfl, by decide⟩

/-- C3 (amended): on each of the three client calls, a request timeout or
network failure propagates to the caller as the underlying request exception
— surfaced, never silently swallowed, but not converted to `CannotConnect`
(which the client raises only for an HTTP 500 status). -/
theorem c3_request_failures_surfaced (e : PyExc) (sc : Str) (lr : Option Str) :
    CtsClient.monitor_stop sc lr (HttpOutcome.raised e) =
      Except.error (ClientError.raised e) ∧
    CtsClient.discover_stoppoints (HttpOutcome.raised e) =
      Except.error (ClientError.raised e) ∧
    CtsClient.get_general_messages (HttpOutcome.raised e) =
      Except.error (ClientError.raised e) :=
  ⟨rfl, rfl, rfl⟩

/-- C5: for every discovery response, whatever the order of the stop points
in the input array, `discover_stoppoints` returns exactly the parsed records
(a permutation of the parse of the input) sorted ascending by display name. -/
theorem c5_discover_sorted_by_name (body : DiscoveryBody) :
    ∃ l, CtsClient.discover_stoppoints (HttpOutcome.completed 200 body) = Except.ok l ∧
      l.Perm (body.annotatedStopPointRef.map parseStopPoint) ∧
      List.Sorted stopPointNameLe l :=
  ⟨_, rfl, List.perm_insertionSort _ _, List.sorted_insertionSort _ _⟩

/-- C6: on each of the three client calls, an HTTP 401 response yields
`InvalidToken` and an HTTP 500 response yields `CannotConnect`. -/
theorem c6_http_status_mapping (sc : Str) (lr : Option Str)
    (mb : MonitorBody) (db : DiscoveryBody) (gb : GeneralMessageBody) :
    CtsClient.monitor_stop sc lr (HttpOutcome.completed 401 mb) =
      Except.error ClientError.invalidToken ∧
    CtsClient.monitor_stop sc lr (HttpOutcome.completed 500 mb) =
      Except.error ClientError.cannotConnect ∧
    CtsClient.discover_stoppoints (HttpOutcome.completed 401 db) =
      Except.error ClientError.invalidToken ∧
    CtsClient.discover_stoppoints (HttpOutcome.completed 500 db) =
      Except.error ClientError.cannotConnect ∧
    CtsClient.get_general_messages (HttpOutcome.completed 401 gb) =
      Except.error ClientError.invalidToken ∧
    CtsClient.get_general_messages (HttpOutcome.completed 500 gb) =
      Except.error ClientError.cannotConnect :=
  ⟨rfl, rfl, rfl, rfl, rfl, rfl⟩

/-- Helper: splitting a string with no underscore leaves it whole. -/
lemma splitUnderscores_no_sep (a : Str) (h : '_' ∉ a) : splitUnderscores a = [a] := by
  induction a with
  | nil => rfl
  | cons c cs ih =>
    have hc : ¬(c = '_') := fun e => h (by simp [e])
    have hcs : '_' ∉ cs := fun hx => h (List.mem_cons_of_mem _ hx)
    simp [splitUnderscores, hc, ih hcs]

/-- Helper: `split("_")` peels off an underscore-free first component. -/
lemma splitUnderscores_append (a rest : Str) (h : '_' ∉ a) :
    splitUnderscores (a ++ '_' :: rest) = a :: splitUnderscores rest := by
  induction a with
  | nil => simp [splitUnderscores]
  | cons c cs ih =>
    have hc : ¬(c = '_') := fun e => h (by simp [e])
    have hcs : '_' ∉ cs := fun hx => h (List.mem_cons_of_mem _ hx)
    simp [splitUnderscores, hc, ih hcs]

/-- Helper: `split("_", maxsplit=1)` of an underscore-free part followed by an
underscore yields exactly that part and the untouched remainder. -/
lemma splitUnderscoreOnce_append (a rest : Str) (h : '_' ∉ a) :
    splitUnderscoreOnce (a ++ '_' :: rest) = [a, rest] := by
  induction a with
  | nil => simp [splitUnderscoreOnce]
  | cons c cs ih =>
    have hc : ¬(c = '_') := fun e => h (by simp [e])
    have hcs : '_' ∉ cs := fun hx => h (List.mem_cons_of_mem _ hx)
    simp [splitUnderscoreOnce, hc, ih hcs]

/-- C9 fails as stated: for a line reference containing an underscore the
decode reads the wrong components — key `"A_B_C"` built from line `"A_B"`
and stop `"C"` decodes to `("A", "B")`. -/
theorem c9_counterexample :
    decodeDestKey (encodeDestKey "A_B".toList "C".toList) ≠
      Except.ok ("A_B".toList, "C".toList) := by
  decide

/-- C9 (amended): encoding a `(line_ref, stop_code)` pair as
`f"{line_ref}_{stop_code}"` and decoding it in the destination-submission
step recovers the original pair, provided neither component contains an
underscore. -/
theorem c9_roundtrip_no_underscore (lr sc : Str) (h1 : '_' ∉ lr) (h2 : '_' ∉ sc) :
    decodeDestKey (encodeDestKey lr sc) = Except.ok (lr, sc) := by
  unfold decodeDestKey encodeDestKey
  rw [splitUnderscoreOnce_append lr sc h1, splitUnderscores_append lr sc h1,
    splitUnderscores_no_sep sc h2]
  rfl

/-- Witness for the amended C9 on a concrete underscore-free pair. -/
theorem c9_roundtrip_no_underscore_witness :
    '_' ∉ "A".toList ∧ '_' ∉ "12".toList ∧
    decodeDestKey (encodeDestKey "A".toList "12".toList) =
      Except.ok ("A".toList, "12".toList) :=
  ⟨by decide, by decide, c9_roundtrip_no_underscore _ _ (by decide) (by decide)⟩

/-- C7: submitting a destination whose decoded `(line_ref, stop_code)` pair
is already present among the configured stops leaves the configured list
unchanged (the duplicate add is idempotent and only logged). -/
theorem c7_duplicate_add_unchanged (stops : List MonitoredStop)
    (logicalStopCode stopName key lr sc : Str)
    (hdec : decodeDestKey key = Except.ok (lr, sc))
    (hmem : ∃ x ∈ stops, x.line_ref = lr ∧ x.stop_code = sc) :
    setDestinationSubmit stops logicalStopCode stopName key = Except.ok stops := by
  have hany : stops.any (fun x => decide (x.line_ref = lr ∧ x.stop_code = sc)) = true := by
    rw [List.any_eq_true]
    obtain ⟨x, hx, hx1, hx2⟩ := hmem
    exact ⟨x, hx, by simp [hx1, hx2]⟩
  unfold setDestinationSubmit
  rw [hdec]
  exact if_pos hany

/-- A configured stop used by witnesses, with the rebuilt two-key shape. -/
def dupStop : MonitoredStop :=
  { line_ref := "A".toList
    stop_code := "12".toList
    logical_stop_code := none
    stop_name := none }

/-- Witness for C7: adding the already-configured pair `("A", "12")` again. -/
theorem c7_duplicate_add_unchanged_witness :
    decodeDestKey "A_12".toList = Except.ok ("A".toList, "12".toList) ∧
    (∃ x ∈ [dupStop], x.line_ref = "A".toList ∧ x.stop_code = "12".toList) ∧
    setDestinationSubmit [dupStop] "22A".toList "Homme de Fer".toList "A_12".toList =
      Except.ok [dupStop] :=
  ⟨by decide, by decide,
    c7_duplicate_add_unchanged [dupStop] "22A".toList "Homme de Fer".toList
      "A_12".toList "A".toList "12".toList (by decide) (by decide)⟩

/-- Helper: `monitor_stop` on an OK response whose first delivery has an
empty or absent `MonitoredStopVisit` returns the empty list and logs the
warning. -/
lemma monitor_stop_empty_result (sc : Str) (lr : Option Str) (body : MonitorBody)
    (d : StopMonitoringDelivery) (ds : List StopMonitoringDelivery)
    (hb : body.stopMonitoringDelivery = d :: ds)
    (hv : d.monitoredStopVisit = none ∨ d.monitoredStopVisit = some []) :
    CtsClient.monitor_stop sc lr (HttpOutcome.completed 200 body) =
      Except.ok ([], true) := by
  show monitorParse body = Except.ok ([], true)
  unfold monitorParse
  rw [hb]
  show (match (d.monitoredStopVisit.getD []).mapM
        (parseVisit d.monitoringRef d.validUntil) with
    | Except.error e => Except.error (ClientError.raised e)
    | Except.ok l => Except.ok (l, decide (l.length ≤ 0))) = Except.ok ([], true)
  rcases hv with h | h <;> rw [h] <;> rfl

/-- C4: every HTTP-200 monitoring response whose `MonitoredStopVisit` array
is empty or absent makes `monitor_stop` return the empty list with the
warning logged and no exception raised. -/
theorem c4_empty_monitoring_response (sc : Str) (lr : Option Str) (body : MonitorBody)
    (d : StopMonitoringDelivery) (ds : List StopMonitoringDelivery)
    (hb : body.stopMonitoringDelivery = d :: ds)
    (hv : d.monitoredStopVisit = none ∨ d.monitoredStopVisit = some []) :
    CtsClient.monitor_stop sc lr (HttpOutcome.completed 200 body) =
      Except.ok ([], true) :=
  monitor_stop_empty_result sc lr body d ds hb hv

/-- A monitoring delivery with an empty visit array, for witnesses. -/
def emptyDelivery : StopMonitoringDelivery :=
  { validUntil := "2024".toList
    monitoringRef := "22".toList
    monitoredStopVisit := some [] }

/-- A monitoring body holding only `emptyDelivery`, for witnesses. -/
def emptyMonitorBody : MonitorBody :=
  { stopMonitoringDelivery := [emptyDelivery] }

/-- Witness for C4 on a concrete `{MonitoredStopVisit: []}` response. -/
theorem c4_empty_monitoring_response_witness :
    emptyMonitorBody.stopMonitoringDelivery = emptyDelivery :: [] ∧
    (emptyDelivery.monitoredStopVisit = none ∨
      emptyDelivery.monitoredStopVisit = some []) ∧
    CtsClient.monitor_stop "22".toList none
        (HttpOutcome.completed 200 emptyMonitorBody) = Except.ok ([], true) :=
  ⟨rfl, Or.inr rfl,
    c4_empty_monitoring_response "22".toList none emptyMonitorBody emptyDelivery []
      rfl (Or.inr rfl)⟩

/-- C10: when the destination-selection fetch gets an empty visit list from
`monitor_stop` (a valid outcome per the client contract), the step raises an
uncaught `IndexError` while reading the stop name from the first visit,
instead of re-rendering the form with an error code. -/
theorem c10_empty_visits_destination_step_raises (scParam : Str) (body : MonitorBody)
    (d : StopMonitoringDelivery) (ds : List StopMonitoringDelivery)
    (hb : body.stopMonitoringDelivery = d :: ds)
    (hv : d.monitoredStopVisit = none ∨ d.monitoredStopVisit = some []) :
    setDestinationFetch
        (CtsClient.monitor_stop scParam none (HttpOutcome.completed 200 body)) =
      DestStepResult.stepRaised PyExc.indexError := by
  rw [monitor_stop_empty_result scParam none body d ds hb hv]
  rfl

/-- Witness for C10 on the concrete empty-visit response. -/
theorem c10_empty_visits_destination_step_raises_witness :
    emptyMonitorBody.stopMonitoringDelivery = emptyDelivery :: [] ∧
    (emptyDelivery.monitoredStopVisit = none ∨
      emptyDelivery.monitoredStopVisit = some []) ∧
    setDestinationFetch
        (CtsClient.monitor_stop "22A".toList none
          (HttpOutcome.completed 200 emptyMonitorBody)) =
      DestStepResult.stepRaised PyExc.indexError :=
  ⟨rfl, Or.inr rfl,
    c10_empty_visits_destination_step_raises "22A".toList emptyMonitorBody
      emptyDelivery [] rfl (Or.inr rfl)⟩

/-- Helper: Python `list.remove` drops exactly the leading occurrence. -/
lemma removeFirstEq_append (l1 l2 : List MonitoredStop) (m : MonitoredStop)
    (h : ∀ x ∈ l1, x ≠ m) :
    removeFirstEq (l1 ++ m :: l2) m = l1 ++ l2 := by
  induction l1 with
  | nil => simp [removeFirstEq]
  | cons x xs ih =>
    have hx : ¬(x = m) := h x (by simp)
    simp only [List.cons_append, removeFirstEq, if_neg hx, List.cons.injEq, true_and]
    exact ih fun y hy => h y (by simp [hy])

/-- C8: removing a configured stop by its registry identifier
`f"{line_ref}_{stop_code}"` removes exactly the one configured entry whose
pair matches the identifier and leaves every other entry unchanged, in
order. -/
theorem c8_remove_exactly_matching (l1 l2 : List MonitoredStop) (m : MonitoredStop)
    (lr sc : Str) (hlr : '_' ∉ lr)
    (hm : m.line_ref = lr ∧ m.stop_code = sc)
    (h1 : ∀ x ∈ l1, ¬(x.line_ref = lr ∧ x.stop_code = sc))
    (h2 : ∀ x ∈ l2, ¬(x.line_ref = lr ∧ x.stop_code = sc)) :
    removeStopByIdentifier (l1 ++ m :: l2) (encodeDestKey lr sc) =
      Except.ok (l1 ++ l2) := by
  have hne : ∀ x ∈ l1, x ≠ m := by
    intro x hx he
    exact h1 x hx (by rw [he]; exact hm)
  have hpm : (fun x => decide (x.line_ref = lr ∧ x.stop_code = sc)) m = true := by
    simp [hm.1, hm.2]
  have hfil : (l1 ++ m :: l2).filter
        (fun x => decide (x.line_ref = lr ∧ x.stop_code = sc)) =
      m :: l2.filter (fun x => decide (x.line_ref = lr ∧ x.stop_code = sc)) := by
    have hl1 : l1.filter (fun x => decide (x.line_ref = lr ∧ x.stop_code = sc)) = [] := by
      rw [List.filter_eq_nil_iff]
      intro a ha
      simpa using h1 a ha
    have hcons : (m :: l2).filter (fun x => decide (x.line_ref = lr ∧ x.stop_code = sc)) =
        m :: l2.filter (fun x => decide (x.line_ref = lr ∧ x.stop_code = sc)) := by
      simp [List.filter_cons, hm.1, hm.2]
    rw [List.filter_append, hl1, List.nil_append, hcons]
  unfold removeStopByIdentifier encodeDestKey
  rw [splitUnderscoreOnce_append lr sc hlr]
  show Except.bind
      (listGet? ((l1 ++ m :: l2).filter
        (fun x => decide (x.line_ref = lr ∧ x.stop_code = sc))) 0)
      (fun target => Except.ok (removeFirstEq (l1 ++ m :: l2) target)) =
    Except.ok (l1 ++ l2)
  rw [hfil]
  show Except.ok (removeFirstEq (l1 ++ m :: l2) m) = Except.ok (l1 ++ l2)
  rw [removeFirstEq_append l1 l2 m hne]

/-- Another configured stop used by the C8 witness, not matching the
identifier. -/
def otherStop : MonitoredStop :=
  { line_ref := "B".toList
    stop_code := "7".toList
    logical_stop_code := none
    stop_name := none }

/-- Witness for C8: removing `("A", "12")` from a two-entry configuration. -/
theorem c8_remove_exactly_matching_witness :
    '_' ∉ "A".toList ∧
    (dupStop.line_ref = "A".toList ∧ dupStop.stop_code = "12".toList) ∧
    (∀ x ∈ [otherStop], ¬(x.line_ref = "A".toList ∧ x.stop_code = "12".toList)) ∧
    removeStopByIdentifier [otherStop, dupStop]
        (encodeDestKey "A".toList "12".toList) = Except.ok [otherStop] :=
  ⟨by decide, by decide, by decide,
    c8_remove_exactly_matching [otherStop] [] dupStop "A".toList "12".toList
      (by decide) (by decide) (by decide) (by decide)⟩
